import Mathlib

/-!
Verification of the remote render-control console (`src/src/ControlsForm.cpp`
and the `main` driver in `src/unnamed/part_000`) against its design
specification.

Modelling conventions:
* C++ `float` arithmetic is modelled over `ℚ` with rounding idealized as
  exact; the IEEE-754 special values that the histogram path can actually
  produce (division by zero giving +infinity, and 0 * infinity giving NaN)
  are modelled explicitly by the small value type `FVal`.
* Machine unsigned integers are modelled as `ℕ` (no operation in the
  modelled code can overflow 32 bits on the domains considered).
* The nanogui toolkit is external: `Slider::set_value` assigns the
  displayed value and does not invoke the slider's callback, and a widget
  callback installed with `set_callback` runs only when invoked.
* Messages handed to the `PacketMuxer` by `serialise(sender, name, value)`
  are modelled as `(name, value)` pairs appended to a send trace.
-/

namespace RemoteRenderUI

/-- Rational stand-in for the C constant `M_PI`.  No theorem below depends
on its exact value, only on it being the single fixed constant used by both
the rotation callback and the fov subscription callback. -/
def mPi : ℚ := 3.141592653589793

/-! ### convertSampleValue (ControlsForm.cpp lines 15-20)

```
std::uint32_t convertSampleValue(float value) {
  // Maximum of 16 otherwise latency will be too high:
  std::uint32_t sampleCount = value * 16;
  // Must be at least 1:
  return std::max(sampleCount, 1u);
}
```
The float-to-unsigned conversion truncates toward zero, which on the
non-negative domain is the floor. -/

/-- `convertSampleValue` from ControlsForm.cpp: scale a normalized value to
at most 16 samples, truncate to an integer, clamp to a minimum of 1. -/
def convertSampleValue (value : ℚ) : ℕ :=
  Nat.max (Int.toNat ⌊value * 16⌋) 1

/-! ### The fov control binding (ControlsForm.cpp lines 44-59)

The slider's local-edit callback publishes `value * 360` on channel
`"fov"`; the `"fov"` subscription callback decodes a radian value and sets
the slider's displayed value to `fovRadians / (2 * M_PI)` without invoking
the slider callback (so nothing is published on the remote-update path). -/

/-- State visible to the control-binding claims: the fov slider's displayed
value and the trace of messages handed to the sender. -/
structure ControlsState where
  fovSliderValue : ℚ
  sent : List (String × ℚ)
deriving DecidableEq

/-- `serialise(sender, name, value)`: append one message to the send trace. -/
def serialise (name : String) (value : ℚ) (s : ControlsState) : ControlsState :=
  { s with sent := s.sent ++ [(name, value)] }

/-- The fov slider's local-edit callback (lines 46-48):
`serialise(sender, "fov", value * 360.f)`. -/
def fovSliderCallback (value : ℚ) (s : ControlsState) : ControlsState :=
  serialise "fov" (value * 360) s

/-- The `"fov"` subscription callback (lines 54-59): decode `fovRadians`
and `fovSlider->set_value(fovRadians / (2.f * M_PI))`; `set_value` only
assigns the displayed value, so the send trace is untouched. -/
def fovDispatch (fovRadians : ℚ) (s : ControlsState) : ControlsState :=
  { s with fovSliderValue := fovRadians / (2 * mPi) }

/-- Count the messages of the trace `l` that are on channel `name`. -/
def countSends (name : String) (l : List (String × ℚ)) : ℕ :=
  (l.filter (fun p => p.1 = name)).length

/-! ### Claims C6, C10, C3, C7 -/

/-- C6: for every input `v` in `[0,1]`, the sample-count conversion is
total (it is a Lean function, defined on all of `ℚ`), returns an integer
`>= 1`, and is monotonically non-decreasing in `v`. -/
theorem convertSampleValue_pos_mono (v₁ v₂ : ℚ)
    (h₁ : 0 ≤ v₁) (h₂ : v₁ ≤ 1) (h₃ : 0 ≤ v₂) (h₄ : v₂ ≤ 1) (hle : v₁ ≤ v₂) :
    1 ≤ convertSampleValue v₁ ∧ convertSampleValue v₁ ≤ convertSampleValue v₂ := by
  constructor
  · exact Nat.le_max_right _ 1
  · unfold convertSampleValue
    have hfloor : ⌊v₁ * 16⌋ ≤ ⌊v₂ * 16⌋ := by
      apply Int.floor_le_floor
      nlinarith
    exact Nat.max_le.mpr
      ⟨Nat.le_trans (Int.toNat_le_toNat hfloor) (Nat.le_max_left _ _), Nat.le_max_right _ _⟩

/-- Witness for C6 at `v₁ = 1/2`, `v₂ = 1`. -/
theorem convertSampleValue_pos_mono_witness :
    1 ≤ convertSampleValue (1/2) ∧ convertSampleValue (1/2) ≤ convertSampleValue 1 :=
  convertSampleValue_pos_mono (1/2) 1 (by norm_num) (by norm_num) (by norm_num)
    (by norm_num) (by norm_num)

/-- C10: for every input `v` in `[0,1]`, `convertSampleValue v` lies in the
integer range `[1, 16]`: 16 is the concrete latency bound. -/
theorem convertSampleValue_bounds (v : ℚ) (h₁ : 0 ≤ v) (h₂ : v ≤ 1) :
    1 ≤ convertSampleValue v ∧ convertSampleValue v ≤ 16 := by
  constructor
  · exact Nat.le_max_right _ 1
  · unfold convertSampleValue
    have hub : ⌊v * 16⌋ ≤ (16 : ℤ) := by
      have : ⌊v * 16⌋ ≤ ⌊(16 : ℚ)⌋ := by
        apply Int.floor_le_floor
        nlinarith
      simpa using this
    have hn : Int.toNat ⌊v * 16⌋ ≤ 16 := by
      have := Int.toNat_le_toNat hub
      simpa using this
    exact Nat.max_le.mpr ⟨hn, by norm_num⟩

/-- Witness for C10 at `v = 1`. -/
theorem convertSampleValue_bounds_witness :
    1 ≤ convertSampleValue 1 ∧ convertSampleValue 1 ≤ 16 :=
  convertSampleValue_bounds 1 (by norm_num) (by norm_num)

/-- C3: applying a remote fov update publishes nothing (the send trace is
unchanged), and applying the same decoded value twice leaves the state
exactly as applying it once — the fov binding is the only control binding
in the source with a remote-update path. -/
theorem fovDispatch_no_publish_idempotent (v : ℚ) (s : ControlsState) :
    (fovDispatch v s).sent = s.sent ∧
    fovDispatch v (fovDispatch v s) = fovDispatch v s := by
  constructor
  · rfl
  · rfl

/-- C7: publishing `"fov"` with payload `1.5708`, then dispatching the
inbound `"fov"` message with the same payload, leaves the slider displaying
`1.5708 / (2 * mPi)` and exactly one `"fov"` send in the trace (the
explicit publish; the dispatch adds none). -/
theorem fov_publish_then_dispatch (s : ControlsState) :
    (fovDispatch (15708/10000) (serialise "fov" (15708/10000) s)).fovSliderValue
      = (15708/10000) / (2 * mPi) ∧
    countSends "fov" (fovDispatch (15708/10000) (serialise "fov" (15708/10000) s)).sent
      = countSends "fov" s.sent + 1 := by
  constructor
  · rfl
  · simp [fovDispatch, serialise, countSends]

/-! ### The tile_histogram subscription callback (ControlsForm.cpp lines 127-146)

```
std::uint32_t max = 0.f;
for (const auto& v : data) { if (v > max) { max = v; } }
const float scale = 1.f / max;
for (const auto& v : data) { dataf.push_back(v * scale); }
```
There is no guard for `max == 0`: `1.f / 0.0f` is IEEE +infinity and
`0.0f * inf` is NaN, so these special values must be part of the model. -/

/-- A C++ `float` value as produced by the histogram path: a finite value
(rounding idealized to exact rational arithmetic), +infinity, or NaN. -/
inductive FVal where
  | fin (q : ℚ)
  | inf
  | nan
deriving DecidableEq, Repr

/-- `1.f / max` for an unsigned `max` converted to float: IEEE division by
zero yields +infinity; otherwise the exact reciprocal. -/
def floatOneDiv (m : ℕ) : FVal :=
  if m = 0 then FVal.inf else FVal.fin (1 / (m : ℚ))

/-- `v * scale` for an unsigned `v` converted to float and a float `scale`:
IEEE `0 * inf` is NaN, `v * inf` is +infinity for positive `v`, NaN
propagates, and finite products are exact. -/
def floatMul (v : ℕ) (s : FVal) : FVal :=
  match s with
  | FVal.nan => FVal.nan
  | FVal.inf => if v = 0 then FVal.nan else FVal.inf
  | FVal.fin q => FVal.fin ((v : ℚ) * q)

/-- The maximum-count loop of the callback: `max = 0` then
`if (v > max) max = v` over the data. -/
def histMax (data : List ℕ) : ℕ :=
  data.foldl (fun m v => if m < v then v else m) 0

/-- The normalization loop of the callback: compute `scale = 1.f / max`
and push `v * scale` for each count. -/
def tileHistogramNormalize (data : List ℕ) : List FVal :=
  data.map (fun v => floatMul v (floatOneDiv (histMax data)))

/-- The fold step of `histMax` is the natural-number maximum. -/
theorem histMax_step_eq_max (m v : ℕ) : (if m < v then v else m) = Nat.max m v := by
  rcases Nat.lt_or_ge m v with h | h
  · simp [h, Nat.max_eq_right (Nat.le_of_lt h)]
  · simp [Nat.not_lt.mpr h, Nat.max_eq_left h]

/-- The accumulator of the `histMax` fold never decreases. -/
theorem le_histMax_foldl (data : List ℕ) (a : ℕ) :
    a ≤ data.foldl (fun m v => if m < v then v else m) a := by
  induction data generalizing a with
  | nil => exact Nat.le_refl a
  | cons x xs ih =>
      refine Nat.le_trans ?_ (ih (if a < x then x else a))
      rw [histMax_step_eq_max]
      exact Nat.le_max_left a x

/-- Every element of the data is bounded by the `histMax` fold. -/
theorem mem_le_histMax_foldl (data : List ℕ) (a : ℕ) (v : ℕ) (hv : v ∈ data) :
    v ≤ data.foldl (fun m v => if m < v then v else m) a := by
  induction data generalizing a with
  | nil => cases hv
  | cons x xs ih =>
      rcases List.mem_cons.mp hv with h | h
      · subst h
        refine Nat.le_trans ?_ (le_histMax_foldl xs (if a < v then v else a))
        rw [histMax_step_eq_max]
        exact Nat.le_max_right a v
      · exact ih _ h

/-- Every element of the data is at most `histMax data`. -/
theorem mem_le_histMax (data : List ℕ) (v : ℕ) (hv : v ∈ data) :
    v ≤ histMax data :=
  mem_le_histMax_foldl data 0 v hv

/-! ### Claims C1, C5 -/

/-- C1 (code-bug evidence): on the all-zero histogram `[0, 0, 0]` the
callback computes `scale = 1.f / 0 = +inf` and pushes `0 * inf = NaN` for
every tile, so the normalized output is NaN everywhere — not the all-zero
sequence the specification defines. -/
theorem tileHistogram_allZero_is_nan :
    tileHistogramNormalize [0, 0, 0] = [FVal.nan, FVal.nan, FVal.nan] ∧
    FVal.nan ≠ FVal.fin 0 := by
  constructor
  · rfl
  · decide

/-- C5: when some count is nonzero, each output is the count divided by the
maximum, every output is a finite value in `[0, 1]`, and any position
holding the maximum count maps to exactly `1`. -/
theorem tileHistogram_nonzero_max (data : List ℕ) (h : 0 < histMax data) :
    tileHistogramNormalize data
      = data.map (fun (v : ℕ) => FVal.fin ((v : ℚ) / (histMax data : ℚ))) ∧
    (∀ x ∈ tileHistogramNormalize data,
      ∃ q : ℚ, x = FVal.fin q ∧ 0 ≤ q ∧ q ≤ 1) ∧
    (∀ i : ℕ, data[i]? = some (histMax data) →
      (tileHistogramNormalize data)[i]? = some (FVal.fin 1)) := by
  have hm0 : histMax data ≠ 0 := Nat.pos_iff_ne_zero.mp h
  have hmq : ((histMax data : ℚ)) ≠ 0 := by
    exact_mod_cast hm0
  have hmap : tileHistogramNormalize data
      = data.map (fun (v : ℕ) => FVal.fin ((v : ℚ) / (histMax data : ℚ))) := by
    unfold tileHistogramNormalize floatOneDiv
    rw [if_neg hm0]
    apply List.map_congr_left
    intro v _
    simp [floatMul, div_eq_mul_inv, one_div]
  refine ⟨hmap, ?_, ?_⟩
  · intro x hx
    rw [hmap] at hx
    rcases List.mem_map.mp hx with ⟨v, hv, rfl⟩
    refine ⟨(v : ℚ) / (histMax data : ℚ), rfl, ?_, ?_⟩
    · exact div_nonneg (Nat.cast_nonneg v) (Nat.cast_nonneg _)
    · rw [div_le_one (by exact_mod_cast h)]
      exact_mod_cast mem_le_histMax data v hv
  · intro i hi
    rw [hmap, List.getElem?_map, hi]
    simp [div_self hmq]

/-- Witness for C5 on the data `[1, 2, 4]`: the maximum is positive and the
position of the maximum normalizes to exactly `1`. -/
theorem tileHistogram_nonzero_max_witness :
    (tileHistogramNormalize [1, 2, 4])[2]? = some (FVal.fin 1) := by
  have h := tileHistogram_nonzero_max [1, 2, 4] (by decide)
  exact h.2.2 2 (by decide)

/-! ### Construction-time publishes (ControlsForm.cpp lines 30-179)

Each widget's local-edit callback, as installed by `set_callback`, and the
default value the constructor assigns with `set_value`.  A widget publishes
during construction exactly when the constructor also runs
`widget->callback()(widget->value())`; the rotation wheel (lines 35-40),
the device chooser (lines 163-173) and the stop button (lines 175-178)
install callbacks but are never invoked there. -/

/-- Rotation wheel callback (lines 36-39): angle in degrees from a radian
wheel value. -/
def rotationCallbackMsg (value : ℚ) : String × ℚ :=
  ("env_rotation", value / (2 * mPi) * 360)

/-- fov slider callback message (lines 46-48). -/
def fovCallbackMsg (value : ℚ) : String × ℚ :=
  ("fov", value * 360)

/-- Exposure slider callback message (lines 65-68). -/
def exposureCallbackMsg (value : ℚ) : String × ℚ :=
  ("exposure", 4 * (value - 1/2))

/-- Gamma slider callback message (lines 75-78). -/
def gammaCallbackMsg (value : ℚ) : String × ℚ :=
  ("gamma", 4 * value)

/-- X slider callback message (lines 86-88). -/
def xCallbackMsg (value : ℚ) : String × ℚ :=
  ("X", value * 1280)

/-- Y slider callback message (lines 95-97). -/
def yCallbackMsg (value : ℚ) : String × ℚ :=
  ("Y", value * 720)

/-- lambda1 slider callback message (lines 104-106). -/
def lambda1CallbackMsg (value : ℚ) : String × ℚ :=
  ("lambda1", value * 100)

/-- lambda2 slider callback message (lines 113-115). -/
def lambda2CallbackMsg (value : ℚ) : String × ℚ :=
  ("lambda2", value * 100)

/-- The messages the `ControlsForm` constructor hands to the sender, in
source order.  Only the widgets whose callback the constructor explicitly
invokes on the default value contribute a message. -/
def constructorSends : List (String × ℚ) :=
  []                                        -- rotationWheel: callback installed, never invoked
  ++ [fovCallbackMsg (90 / 360)]            -- lines 49-50
  ++ [exposureCallbackMsg (1/2)]            -- lines 69-70
  ++ [gammaCallbackMsg (2.2 / 4)]           -- lines 79-80
  ++ [xCallbackMsg (640 / 1280)]            -- lines 89-90
  ++ [yCallbackMsg (360 / 720)]             -- lines 98-99
  ++ [lambda1CallbackMsg (500 / 10)]        -- lines 107-108
  ++ [lambda2CallbackMsg (500 / 10)]        -- lines 116-117
  ++ []                                     -- deviceChooser: callback installed, never invoked
  ++ []                                     -- stop button: callback installed, never invoked

/-- The channels paired with an interactive control by the constructor. -/
def bindingChannels : List String :=
  ["env_rotation", "fov", "exposure", "gamma", "X", "Y",
   "lambda1", "lambda2", "device"]

/-! ### Claim C8 -/

/-- C8 (counterexample): the rotation wheel is a control binding created by
the constructor on channel `"env_rotation"`, yet construction publishes
nothing on that channel — so it is false that every binding publishes its
default during construction. -/
theorem constructor_rotation_binding_no_publish :
    "env_rotation" ∈ bindingChannels ∧
    countSends "env_rotation" constructorSends = 0 ∧
    countSends "env_rotation" constructorSends ≠ 1 := by
  refine ⟨?_, ?_, ?_⟩ <;> decide

/-- C8 (amended): the seven slider bindings each publish exactly one
message on their channel during construction, while the rotation wheel and
device chooser bindings install callbacks but publish nothing; construction
sends exactly seven messages in total. -/
theorem constructor_publish_policy :
    countSends "fov" constructorSends = 1 ∧
    countSends "exposure" constructorSends = 1 ∧
    countSends "gamma" constructorSends = 1 ∧
    countSends "X" constructorSends = 1 ∧
    countSends "Y" constructorSends = 1 ∧
    countSends "lambda1" constructorSends = 1 ∧
    countSends "lambda2" constructorSends = 1 ∧
    countSends "env_rotation" constructorSends = 0 ∧
    countSends "device" constructorSends = 0 ∧
    constructorSends.length = 7 := by
  repeat constructor

/-! ### The main driver (src/unnamed/part_000 lines 74-155)

Outcomes of `main` as a function of which startup step succeeds.  The body
runs inside one `try`/`catch (std::runtime_error)` block: the JSON load of
`--nif-paths` (when given) can throw, a failed `socket->Connect` throws
`"Unable to connect"`, and the catch handler returns `EXIT_FAILURE` (1).
`gui.Initialize` runs only after a successful connection; if it fails,
`main` returns 1 directly.  Otherwise the interactive loop runs and `main`
returns `EXIT_SUCCESS` (0). -/

/-- Which of the fallible startup steps of `main` succeed.  `nifJsonOk` is
vacuously true when no `--nif-paths` file is given. -/
structure MainEnv where
  nifJsonOk : Bool
  connectOk : Bool
  guiInitOk : Bool
deriving DecidableEq

/-- Observable outcome of `main`: the process exit code and whether the
UI main window was ever initialized/shown. -/
structure MainResult where
  exitCode : ℕ
  uiShown : Bool
deriving DecidableEq

/-- `main` (lines 74-155): JSON load, then connect, then UI init, then the
interactive loop; a throw before UI init is caught and turned into
`EXIT_FAILURE` with no UI ever shown. -/
def runMain (env : MainEnv) : MainResult :=
  if env.nifJsonOk = false then { exitCode := 1, uiShown := false }
  else if env.connectOk = false then { exitCode := 1, uiShown := false }
  else if env.guiInitOk = false then { exitCode := 1, uiShown := false }
  else { exitCode := 0, uiShown := true }

/-! ### Claim C9 -/

/-- C9: `main` exits 0 exactly when every startup step succeeds and the
session shuts down normally; when the transport connection cannot be
established the exit code is nonzero and no UI is ever shown; any other
unrecoverable startup failure also exits nonzero. -/
theorem runMain_exit_codes (env : MainEnv) :
    ((runMain env).exitCode = 0 ↔ env = ⟨true, true, true⟩) ∧
    (env.connectOk = false → (runMain env).exitCode ≠ 0 ∧ (runMain env).uiShown = false) := by
  rcases env with ⟨nj, co, gi⟩
  rcases nj <;> rcases co <;> rcases gi <;> simp [runMain]

/-- Witness for C9 at the concrete environment where the connection fails
but everything else would have succeeded. -/
theorem runMain_exit_codes_witness :
    (runMain ⟨true, false, true⟩).exitCode ≠ 0 ∧
    (runMain ⟨true, false, true⟩).uiShown = false :=
  (runMain_exit_codes ⟨true, false, true⟩).2 rfl

/-! ### savePfm (ControlsForm.cpp lines 185-201)

```
void ControlsForm::savePfm(const std::string& fileName) {
  if (!hdrBuffer.empty()) {
    std::lock_guard<std::mutex> lock(hdrBufferMutex);
    std::ofstream f(fileName, std::ios::binary);
    f << "PF\n";
    f << std::to_string(hdrHeader.width) << " ";
    f << std::to_string(hdrHeader.height) << "\n";
    f << "-1.0\n";
    for (auto r = hdrHeader.height - 1; r >= 0; --r) {
      auto rowStart = reinterpret_cast<char*>(hdrBuffer.data() + (r * hdrHeader.width * 3));
      f.write(rowStart, hdrHeader.width * 3 * sizeof(float));
    }
  }
}
```
The buffer holds 32-bit floats; each sample is modelled by its bit pattern
(a natural number below `2^32`) and `f.write` emits its four bytes in
little-endian memory order.  When the buffer is empty the `ofstream` is
never even constructed, so no file exists: the result is `none`. -/

/-- The width/height part of `packets::HdrHeader` (its remaining field is
not read by `savePfm`).  The fields are signed, as required by the
decrementing row loop. -/
structure HdrHeader where
  width : ℤ
  height : ℤ
deriving DecidableEq

/-- The `ControlsForm` state that `savePfm` reads: the frame header and
the float buffer (one bit pattern per sample, in memory order). -/
structure ControlsFrameState where
  hdrHeader : HdrHeader
  hdrBuffer : List ℕ
deriving DecidableEq

/-- ASCII bytes of a header string. -/
def stringBytes (s : String) : List ℕ :=
  s.data.map Char.toNat

/-- The four bytes of one 32-bit sample in little-endian memory order. -/
def bytesLE4 (bits : ℕ) : List ℕ :=
  [bits % 256, bits / 256 % 256, bits / 65536 % 256, bits / 16777216 % 256]

/-- The bytes `f.write` emits for row `r`: the `w * 3` samples starting at
element `r * w * 3`, i.e. `w * 3 * 4` raw bytes. -/
def rowData (w : ℕ) (buf : List ℕ) (r : ℕ) : List ℕ :=
  ((buf.drop (r * w * 3)).take (w * 3)).flatMap bytesLE4

/-- `savePfm`: `none` when the buffer is empty (no file is created at
all); otherwise the exact byte stream written to the file. -/
def savePfm (st : ControlsFrameState) : Option (List ℕ) :=
  if st.hdrBuffer.isEmpty then none
  else some
    (stringBytes "PF\n"
      ++ stringBytes (toString st.hdrHeader.width)
      ++ stringBytes " "
      ++ stringBytes (toString st.hdrHeader.height)
      ++ stringBytes "\n"
      ++ stringBytes "-1.0\n"
      ++ (List.range st.hdrHeader.height.toNat).reverse.flatMap
           (rowData st.hdrHeader.width.toNat st.hdrBuffer))

/-- Modelled from the spec: the frame accumulator that fills `hdrBuffer`
is not under `src/` (only `savePfm` and the member initialization are);
per the spec the accumulator performs a single terminal write of a
complete frame into the buffer, so while no frame has ever completed the
buffer is still its default-constructed empty value. -/
def neverCompletedFrame (st : ControlsFrameState) : Prop :=
  st.hdrBuffer = []

/-- The state established by the `ControlsForm` constructor (line 27):
`hdrHeader{0,0,0}` and a default-empty buffer. -/
def initialControlsFrameState : ControlsFrameState :=
  ⟨⟨0, 0⟩, []⟩

/-- `stringBytes` distributes over string concatenation. -/
theorem stringBytes_append (a b : String) :
    stringBytes (a ++ b) = stringBytes a ++ stringBytes b := by
  simp [stringBytes]

/-- `toString` of a natural number cast to `ℤ` is `toString` of the
number itself. -/
theorem toString_natCast_int (n : ℕ) : toString (n : ℤ) = toString n := rfl

/-- Emitting four bytes per sample multiplies the length by four. -/
theorem flatMap_bytesLE4_length (l : List ℕ) :
    (l.flatMap bytesLE4).length = l.length * 4 := by
  induction l with
  | nil => rfl
  | cons x xs ih => simp [bytesLE4, ih]; ring

/-- Each row of a completed `w × h` frame is exactly `w * 3 * 4` bytes. -/
theorem rowData_length (w h : ℕ) (buf : List ℕ)
    (hbuf : buf.length = w * h * 3) (r : ℕ) (hr : r < h) :
    (rowData w buf r).length = w * 3 * 4 := by
  have h2 : (r + 1) * (w * 3) ≤ h * (w * 3) :=
    Nat.mul_le_mul_right _ hr
  have h4 : r * w * 3 + w * 3 ≤ w * h * 3 := by
    calc r * w * 3 + w * 3 = (r + 1) * (w * 3) := by ring
    _ ≤ h * (w * 3) := h2
    _ = w * h * 3 := by ring
  rw [rowData, flatMap_bytesLE4_length, List.length_take, List.length_drop, hbuf]
  omega

/-! ### Claims C2, C4 -/

/-- C2: calling `savePfm` before any frame has completed (so the buffer is
still empty) writes nothing: no file is created, no bytes are emitted, and
the call returns normally. -/
theorem savePfm_no_completed_frame (st : ControlsFrameState)
    (h : neverCompletedFrame st) : savePfm st = none := by
  unfold neverCompletedFrame at h
  simp [savePfm, h]

/-- Witness for C2 at the constructor's initial state. -/
theorem savePfm_no_completed_frame_witness :
    savePfm initialControlsFrameState = none :=
  savePfm_no_completed_frame initialControlsFrameState rfl

/-- C4: for a completed `w × h` frame (`w, h ≥ 1`, buffer of
`w * h * 3` samples) the written bytes are exactly the ASCII header
`"PF\n<w> <h>\n-1.0\n"` followed by the rows from the bottom row `h - 1`
down to the top row `0`, each row exactly `w * 3 * 4` bytes. -/
theorem savePfm_completed_frame (w h : ℕ) (buf : List ℕ)
    (hw : 1 ≤ w) (hh : 1 ≤ h) (hbuf : buf.length = w * h * 3) :
    savePfm ⟨⟨(w : ℤ), (h : ℤ)⟩, buf⟩
      = some (stringBytes ("PF\n" ++ toString w ++ " " ++ toString h ++ "\n" ++ "-1.0\n")
          ++ (List.range h).reverse.flatMap (rowData w buf)) ∧
    ∀ r, r < h → (rowData w buf r).length = w * 3 * 4 := by
  constructor
  · have hne : buf.isEmpty = false := by
      have hpos : 0 < buf.length := by
        rw [hbuf]
        exact Nat.mul_pos (Nat.mul_pos hw hh) (by norm_num)
      rcases buf with _ | ⟨x, xs⟩
      · simp at hpos
      · rfl
    simp only [savePfm, hne, Bool.false_eq_true, if_false, Int.toNat_natCast,
      toString_natCast_int, stringBytes_append, List.append_assoc]
  · intro r hr
    exact rowData_length w h buf hbuf r hr

/-- Witness for C4 on a synthetic 2×1 completed frame: the header bytes
are exactly `"PF\n2 1\n-1.0\n"`, followed by the single row of
`2 * 3 * 4 = 24` raw bytes. -/
theorem savePfm_completed_frame_witness :
    savePfm ⟨⟨2, 1⟩, [1, 2, 3, 4, 5, 6]⟩
      = some (stringBytes "PF\n2 1\n-1.0\n" ++ rowData 2 [1, 2, 3, 4, 5, 6] 0) ∧
    (rowData 2 [1, 2, 3, 4, 5, 6] 0).length = 24 := by
  have h := savePfm_completed_frame 2 1 [1, 2, 3, 4, 5, 6]
    (by norm_num) (by norm_num) (by norm_num)
  constructor
  · have h1 := h.1
    norm_num at h1
    rw [h1]
    rfl
  · have h2 := h.2 0 (by norm_num)
    simpa using h2

end RemoteRenderUI
